import Mathlib

/-!
Verification of the event-inbox pagination, cursor-codec, and retry-lifecycle
subsystem of the Zapier-Triggers-API repository.

The Python sources are shallowly embedded: strings are `String`/`List Char`,
bytes are `Nat` values below 256, DynamoDB items are association lists of
attribute values, and fallible operations return `Except`/`Option`.
-/

namespace ZapierTriggers

/-! ## URL-safe base64 (model of Python `base64.urlsafe_b64encode` / `urlsafe_b64decode`)

The encoder maps byte lists (each entry `< 256`) to the url-safe alphabet with
trailing `=` padding; the decoder inverts it, failing on malformed input.
-/

def b64Alphabet : List Char :=
  (List.range 26).map (fun n => Char.ofNat (65 + n)) ++
    (List.range 26).map (fun n => Char.ofNat (97 + n)) ++
    (List.range 10).map (fun n => Char.ofNat (48 + n)) ++ ['-', '_']

def b64Char (n : Nat) : Char := b64Alphabet.getD n 'A'

def b64CharVal (c : Char) : Option Nat := b64Alphabet.findIdx? (fun x => x = c)

def b64encode : List Nat → List Char
  | [] => []
  | [a] => [b64Char (a / 4), b64Char (a % 4 * 16), '=', '=']
  | [a, b] => [b64Char (a / 4), b64Char (a % 4 * 16 + b / 16), b64Char (b % 16 * 4), '=']
  | a :: b :: c :: rest =>
      b64Char (a / 4) :: b64Char (a % 4 * 16 + b / 16) ::
      b64Char (b % 16 * 4 + c / 64) :: b64Char (c % 64) :: b64encode rest

def b64decode : List Char → Option (List Nat)
  | [] => some []
  | c1 :: c2 :: c3 :: c4 :: rest =>
      match b64CharVal c1, b64CharVal c2 with
      | some v1, some v2 =>
          if c3 = '=' then
            if c4 = '=' ∧ rest = [] then some [v1 * 4 + v2 / 16] else none
          else
            match b64CharVal c3 with
            | some v3 =>
                if c4 = '=' then
                  if rest = [] then
                    some [v1 * 4 + v2 / 16, v2 % 16 * 16 + v3 / 4]
                  else none
                else
                  match b64CharVal c4 with
                  | some v4 =>
                      match b64decode rest with
                      | some tail =>
                          some ((v1 * 4 + v2 / 16) :: (v2 % 16 * 16 + v3 / 4) ::
                            (v3 % 4 * 64 + v4) :: tail)
                      | none => none
                  | none => none
            | none => none
      | _, _ => none
  | _ => none

lemma b64CharVal_b64Char_fin : ∀ n : Fin 64, b64CharVal (b64Char n.val) = some n.val := by
  decide

lemma b64CharVal_b64Char {n : Nat} (h : n < 64) : b64CharVal (b64Char n) = some n :=
  b64CharVal_b64Char_fin ⟨n, h⟩

lemma b64Char_ne_pad_fin : ∀ n : Fin 64, b64Char n.val ≠ '=' := by decide

lemma b64Char_ne_pad {n : Nat} (h : n < 64) : b64Char n ≠ '=' :=
  b64Char_ne_pad_fin ⟨n, h⟩

lemma b64decode_b64encode_aux :
    ∀ (fuel : Nat) (l : List Nat), l.length ≤ fuel → (∀ x ∈ l, x < 256) →
      b64decode (b64encode l) = some l := by
  intro fuel
  induction fuel with
  | zero =>
      intro l hl _
      have : l = [] := List.length_eq_zero.mp (Nat.le_zero.mp hl)
      subst this
      rfl
  | succ n ih =>
      intro l hl hb
      match l with
      | [] => rfl
      | [a] =>
          have ha : a < 256 := hb a (by simp)
          have e1 := b64CharVal_b64Char (n := a / 4) (by omega)
          have e2 := b64CharVal_b64Char (n := a % 4 * 16) (by omega)
          simp only [b64encode, b64decode, e1, e2, if_pos rfl]
          simp only [and_self, if_pos, Option.some.injEq, List.cons.injEq, and_true]
          omega
      | [a, b] =>
          have ha : a < 256 := hb a (by simp)
          have hbb : b < 256 := hb b (by simp)
          have e1 := b64CharVal_b64Char (n := a / 4) (by omega)
          have e2 := b64CharVal_b64Char (n := a % 4 * 16 + b / 16) (by omega)
          have e3 := b64CharVal_b64Char (n := b % 16 * 4) (by omega)
          have ne3 := b64Char_ne_pad (n := b % 16 * 4) (by omega)
          simp only [b64encode, b64decode, e1, e2, e3, if_neg ne3, if_pos rfl]
          simp only [if_pos, Option.some.injEq, List.cons.injEq, and_true]
          omega
      | a :: b :: c :: rest =>
          have ha : a < 256 := hb a (by simp)
          have hbb : b < 256 := hb b (by simp)
          have hc : c < 256 := hb c (by simp)
          have e1 := b64CharVal_b64Char (n := a / 4) (by omega)
          have e2 := b64CharVal_b64Char (n := a % 4 * 16 + b / 16) (by omega)
          have e3 := b64CharVal_b64Char (n := b % 16 * 4 + c / 64) (by omega)
          have e4 := b64CharVal_b64Char (n := c % 64) (by omega)
          have ne3 := b64Char_ne_pad (n := b % 16 * 4 + c / 64) (by omega)
          have ne4 := b64Char_ne_pad (n := c % 64) (by omega)
          have hrest : b64decode (b64encode rest) = some rest := by
            refine ih rest ?_ ?_
            · have := hl
              simp only [List.length_cons] at this ⊢
              omega
            · intro x hx
              exact hb x (by simp [hx])
          simp only [b64encode, b64decode, e1, e2, e3, e4, if_neg ne3, if_neg ne4, hrest]
          simp only [Option.some.injEq, List.cons.injEq, and_true]
          omega

lemma b64decode_b64encode (l : List Nat) (h : ∀ x ∈ l, x < 256) :
    b64decode (b64encode l) = some l :=
  b64decode_b64encode_aux l.length l (Nat.le_refl _) h

/-! ## SHA-256 and HMAC-SHA256 (model of Python `hashlib.sha256` / `hmac.new(...).hexdigest()`)

Bytes and 32-bit words are `Nat` with explicit reduction modulo `2^32`.
-/

def w32 (x : Nat) : Nat := x % 4294967296

def rotr32 (n x : Nat) : Nat := w32 ((x >>> n) ||| (x <<< (32 - n)))

def shaCh (x y z : Nat) : Nat := (x &&& y) ^^^ ((x ^^^ 4294967295) &&& z)

def shaMaj (x y z : Nat) : Nat := (x &&& y) ^^^ (x &&& z) ^^^ (y &&& z)

def bigSigma0 (x : Nat) : Nat := rotr32 2 x ^^^ rotr32 13 x ^^^ rotr32 22 x

def bigSigma1 (x : Nat) : Nat := rotr32 6 x ^^^ rotr32 11 x ^^^ rotr32 25 x

def smallSigma0 (x : Nat) : Nat := rotr32 7 x ^^^ rotr32 18 x ^^^ (x >>> 3)

def smallSigma1 (x : Nat) : Nat := rotr32 17 x ^^^ rotr32 19 x ^^^ (x >>> 10)

def shaK : List Nat :=
  [1116352408, 1899447441, 3049323471, 3921009573, 961987163,
   1508970993, 2453635748, 2870763221, 3624381080, 310598401,
   607225278, 1426881987, 1925078388, 2162078206, 2614888103,
   3248222580, 3835390401, 4022224774, 264347078, 604807628,
   770255983, 1249150122, 1555081692, 1996064986, 2554220882,
   2821834349, 2952996808, 3210313671, 3336571891, 3584528711,
   113926993, 338241895, 666307205, 773529912, 1294757372,
   1396182291, 1695183700, 1986661051, 2177026350, 2456956037,
   2730485921, 2820302411, 3259730800, 3345764771, 3516065817,
   3600352804, 4094571909, 275423344, 430227734, 506948616,
   659060556, 883997877, 958139571, 1322822218, 1537002063,
   1747873779, 1955562222, 2024104815, 2227730452, 2361852424,
   2428436474, 2756734187, 3204031479, 3329325298]

def shaH0 : List Nat :=
  [1779033703, 3144134277, 1013904242, 2773480762, 1359893119,
   2600822924, 528734635, 1541459225]

def toBytesBE (n x : Nat) : List Nat :=
  (List.range n).map (fun i => (x >>> (8 * (n - 1 - i))) % 256)

def toWordsBE : List Nat → List Nat
  | b1 :: b2 :: b3 :: b4 :: rest =>
      (b1 * 16777216 + b2 * 65536 + b3 * 256 + b4) :: toWordsBE rest
  | _ => []

def chunksOf64 : List Nat → List (List Nat)
  | [] => []
  | x :: rest => (x :: rest.take 63) :: chunksOf64 (rest.drop 63)
termination_by l => l.length
decreasing_by
  simp only [List.length_drop, List.length_cons]
  omega

def shaPad (msg : List Nat) : List Nat :=
  msg ++ 128 :: List.replicate ((119 - msg.length % 64) % 64) 0 ++ toBytesBE 8 (msg.length * 8)

def shaExtendStep (acc : List Nat) : List Nat :=
  acc ++ [w32 (smallSigma1 (acc.getD (acc.length - 2) 0) + acc.getD (acc.length - 7) 0 +
    smallSigma0 (acc.getD (acc.length - 15) 0) + acc.getD (acc.length - 16) 0)]

def shaSchedule (w : List Nat) : List Nat :=
  (List.range 48).foldl (fun acc _ => shaExtendStep acc) w

def shaRound (w : List Nat) (st : List Nat) (i : Nat) : List Nat :=
  match st with
  | [a, b, c, d, e, f, g, h] =>
      let t1 := w32 (h + bigSigma1 e + shaCh e f g + shaK.getD i 0 + w.getD i 0)
      let t2 := w32 (bigSigma0 a + shaMaj a b c)
      [w32 (t1 + t2), a, b, c, w32 (d + t1), e, f, g]
  | other => other

def shaCompress (h : List Nat) (block : List Nat) : List Nat :=
  let w := shaSchedule (toWordsBE block)
  let st := (List.range 64).foldl (shaRound w) h
  List.zipWith (fun x y => w32 (x + y)) h st

def sha256 (msg : List Nat) : List Nat :=
  let blocks := chunksOf64 (shaPad msg)
  (blocks.foldl shaCompress shaH0).foldr (fun wd acc => toBytesBE 4 wd ++ acc) []

def hmacSha256 (key msg : List Nat) : List Nat :=
  let k0 := if 64 < key.length then sha256 key else key
  let k := k0 ++ List.replicate (64 - k0.length) 0
  sha256 ((k.map (fun b => b ^^^ 92)) ++ sha256 ((k.map (fun b => b ^^^ 54)) ++ msg))

def hexChars : List Char := (List.range 16).map Nat.digitChar

def hexChar (n : Nat) : Char := hexChars.getD (n % 16) '0'

def bytesToHex (l : List Nat) : List Char :=
  l.foldr (fun b acc => hexChar (b / 16) :: hexChar (b % 16) :: acc) []

def strBytes (s : String) : List Nat := s.data.map Char.toNat

/-- Model of `PaginationCursor._generate_signature`: hex HMAC-SHA256 of the payload
under the server-held secret. -/
def generateSignature (secret payload : String) : String :=
  String.mk (bytesToHex (hmacSha256 (strBytes secret) (strBytes payload)))

/-- The character class every cursor-relevant character must satisfy: ASCII,
not a quote, not a backslash. -/
def okChar (c : Char) : Bool := c.toNat < 128 && c ≠ '"' && c ≠ '\\'

lemma hexChar_fin :
    ∀ m : Fin 16, (hexChars.getD m.val '0').toNat < 128 ∧ hexChars.getD m.val '0' ≠ '.' ∧
      hexChars.getD m.val '0' ≠ '"' ∧ hexChars.getD m.val '0' ≠ '\\' := by
  decide

lemma hexChar_props (n : Nat) :
    (hexChar n).toNat < 128 ∧ hexChar n ≠ '.' ∧ hexChar n ≠ '"' ∧ hexChar n ≠ '\\' :=
  hexChar_fin ⟨n % 16, Nat.mod_lt _ (by omega)⟩

lemma bytesToHex_props :
    ∀ (l : List Nat), ∀ c ∈ bytesToHex l,
      c.toNat < 128 ∧ c ≠ '.' ∧ c ≠ '"' ∧ c ≠ '\\' := by
  intro l
  induction l with
  | nil => intro c hc; simp [bytesToHex] at hc
  | cons b rest ih =>
      intro c hc
      simp only [bytesToHex, List.foldr_cons, List.mem_cons] at hc
      rcases hc with h | h | h
      · subst h; exact hexChar_props _
      · subst h; exact hexChar_props _
      · exact ih c h

/-! ## Flat JSON object codec

Model of `json.dumps(..., separators=(",", ":"), sort_keys=True)` and of
`json.loads` restricted to the flat string-valued objects the cursor codec
produces.  String values are parsed up to the closing quote; escape sequences
never occur in valid cursor payloads and make the parser fail.
-/

def parseStr : List Char → Option (List Char × List Char)
  | [] => none
  | c :: rest =>
      if c = '"' then some ([], rest)
      else if c = '\\' then none
      else
        match parseStr rest with
        | some (s, r) => some (c :: s, r)
        | none => none

def parsePair (l : List Char) : Option (String × String × List Char) :=
  match l with
  | '"' :: r1 =>
      match parseStr r1 with
      | some (k, r2) =>
          match r2 with
          | ':' :: '"' :: r3 =>
              match parseStr r3 with
              | some (v, r4) => some (String.mk k, String.mk v, r4)
              | none => none
          | _ => none
      | none => none
  | _ => none

def parseMembers : Nat → List Char → Option (List (String × String))
  | 0, _ => none
  | fuel + 1, l =>
      match parsePair l with
      | some (k, v, r) =>
          match r with
          | ['}'] => some [(k, v)]
          | ',' :: r2 =>
              match parseMembers fuel r2 with
              | some ms => some ((k, v) :: ms)
              | none => none
          | _ => none
      | none => none

def jsonLoadsFlat (s : String) : Option (List (String × String)) :=
  match s.data with
  | '{' :: rest => if rest = ['}'] then some [] else parseMembers rest.length rest
  | _ => none

def lookupField : List (String × String) → String → Option String
  | [], _ => none
  | (k, v) :: rest, key => if k = key then some v else lookupField rest key

/-- Model of the canonical serialization in `encode_cursor`: compact separators
and alphabetically sorted keys. -/
def payloadJson (timestamp event_id user_id : String) : String :=
  "\x7b\"event_id\":\"" ++ event_id ++ "\",\"timestamp\":\"" ++ timestamp ++
    "\",\"user_id\":\"" ++ user_id ++ "\"\x7d"

def validStr (s : String) : Bool := s.data.all okChar

lemma validStr_spec {s : String} (h : validStr s = true) :
    ∀ c ∈ s.data, c.toNat < 128 ∧ c ≠ '"' ∧ c ≠ '\\' := by
  intro c hc
  have h2 := List.all_eq_true.mp h c hc
  simp only [okChar, Bool.and_eq_true, decide_eq_true_eq] at h2
  exact ⟨h2.1.1, h2.1.2, h2.2⟩

lemma parseStr_append (v r : List Char) (h : ∀ c ∈ v, c ≠ '"' ∧ c ≠ '\\') :
    parseStr (v ++ '"' :: r) = some (v, r) := by
  induction v with
  | nil => simp [parseStr]
  | cons c cs ih =>
      have hc := h c (by simp)
      have hrest : ∀ x ∈ cs, x ≠ '"' ∧ x ≠ '\\' := fun x hx => h x (by simp [hx])
      simp [parseStr, hc.1, hc.2, ih hrest]

lemma string_mk_data (s : String) : String.mk s.data = s := rfl

lemma parsePair_lit (k : List Char) (hk : ∀ c ∈ k, c ≠ '"' ∧ c ≠ '\\')
    (v : String) (hv : ∀ c ∈ v.data, c ≠ '"' ∧ c ≠ '\\') (r : List Char) :
    parsePair ('"' :: (k ++ '"' :: ':' :: '"' :: (v.data ++ '"' :: r))) =
      some (String.mk k, v, r) := by
  simp [parsePair, parseStr_append k _ hk, parseStr_append v.data r hv, string_mk_data]

def keyEventId : List Char := ['e', 'v', 'e', 'n', 't', '_', 'i', 'd']

def keyTimestamp : List Char := ['t', 'i', 'm', 'e', 's', 't', 'a', 'm', 'p']

def keyUserId : List Char := ['u', 's', 'e', 'r', '_', 'i', 'd']

lemma payloadJson_data (t e u : String) :
    (payloadJson t e u).data =
      '{' :: '"' :: (keyEventId ++ '"' :: ':' :: '"' :: (e.data ++ '"' ::
        (',' :: '"' :: (keyTimestamp ++ '"' :: ':' :: '"' :: (t.data ++ '"' ::
          (',' :: '"' :: (keyUserId ++ '"' :: ':' :: '"' :: (u.data ++ '"' :: ['}'])))))))) := by
  simp [payloadJson, String.data_append, keyEventId, keyTimestamp, keyUserId]

lemma parseMembers_payload (fuel : Nat) (hf : 3 ≤ fuel) (t e u : String)
    (ht : ∀ c ∈ t.data, c ≠ '"' ∧ c ≠ '\\')
    (he : ∀ c ∈ e.data, c ≠ '"' ∧ c ≠ '\\')
    (hu : ∀ c ∈ u.data, c ≠ '"' ∧ c ≠ '\\') :
    parseMembers fuel ('"' :: (keyEventId ++ '"' :: ':' :: '"' :: (e.data ++ '"' ::
        (',' :: '"' :: (keyTimestamp ++ '"' :: ':' :: '"' :: (t.data ++ '"' ::
          (',' :: '"' :: (keyUserId ++ '"' :: ':' :: '"' :: (u.data ++ '"' :: ['}']))))))))) =
      some [("event_id", e), ("timestamp", t), ("user_id", u)] := by
  obtain ⟨m, rfl⟩ : ∃ m, fuel = m + 3 := ⟨fuel - 3, by omega⟩
  have hkE : ∀ c ∈ keyEventId, c ≠ '"' ∧ c ≠ '\\' := by decide
  have hkT : ∀ c ∈ keyTimestamp, c ≠ '"' ∧ c ≠ '\\' := by decide
  have hkU : ∀ c ∈ keyUserId, c ≠ '"' ∧ c ≠ '\\' := by decide
  have p1 := parsePair_lit keyEventId hkE e he
    (',' :: '"' :: (keyTimestamp ++ '"' :: ':' :: '"' :: (t.data ++ '"' ::
      (',' :: '"' :: (keyUserId ++ '"' :: ':' :: '"' :: (u.data ++ '"' :: ['}']))))))
  have p2 := parsePair_lit keyTimestamp hkT t ht
    (',' :: '"' :: (keyUserId ++ '"' :: ':' :: '"' :: (u.data ++ '"' :: ['}'])))
  have p3 := parsePair_lit keyUserId hkU u hu ['}']
  have e1 : String.mk keyEventId = "event_id" := rfl
  have e2 : String.mk keyTimestamp = "timestamp" := rfl
  have e3 : String.mk keyUserId = "user_id" := rfl
  simp [parseMembers, p1, p2, p3, e1, e2, e3]

lemma jsonLoadsFlat_payloadJson (t e u : String)
    (ht : validStr t = true) (he : validStr e = true) (hu : validStr u = true) :
    jsonLoadsFlat (payloadJson t e u) =
      some [("event_id", e), ("timestamp", t), ("user_id", u)] := by
  have ht2 : ∀ c ∈ t.data, c ≠ '"' ∧ c ≠ '\\' := fun c hc => (validStr_spec ht c hc).2
  have he2 : ∀ c ∈ e.data, c ≠ '"' ∧ c ≠ '\\' := fun c hc => (validStr_spec he c hc).2
  have hu2 : ∀ c ∈ u.data, c ≠ '"' ∧ c ≠ '\\' := fun c hc => (validStr_spec hu c hc).2
  have hd := payloadJson_data t e u
  simp only [jsonLoadsFlat, hd]
  have hne : ('"' :: (keyEventId ++ '"' :: ':' :: '"' :: (e.data ++ '"' ::
      (',' :: '"' :: (keyTimestamp ++ '"' :: ':' :: '"' :: (t.data ++ '"' ::
        (',' :: '"' :: (keyUserId ++ '"' :: ':' :: '"' :: (u.data ++ '"' :: ['}']))))))))) ≠
      ['}'] := by
    simp [keyEventId]
  rw [if_neg hne]
  apply parseMembers_payload _ _ t e u ht2 he2 hu2
  simp [keyEventId, List.length_append]

/-! ## Splitting the cursor payload from its signature

Model of `decoded.rsplit(".", 1)`: split at the last dot, `none` when no dot
occurs (the source then treats the cursor as malformed).
-/

def rsplitDot : List Char → Option (List Char × List Char)
  | [] => none
  | c :: rest =>
      match rsplitDot rest with
      | some (p, s) => some (c :: p, s)
      | none => if c = '.' then some ([], rest) else none

lemma rsplitDot_no_dot (l : List Char) (h : ∀ c ∈ l, c ≠ '.') : rsplitDot l = none := by
  induction l with
  | nil => rfl
  | cons c rest ih =>
      have hc := h c (by simp)
      have hrest : rsplitDot rest = none := ih (fun x hx => h x (by simp [hx]))
      simp [rsplitDot, hrest, hc]

lemma rsplitDot_append (p s : List Char) (h : ∀ c ∈ s, c ≠ '.') :
    rsplitDot (p ++ '.' :: s) = some (p, s) := by
  induction p with
  | nil => simp [rsplitDot, rsplitDot_no_dot s h]
  | cons c cs ih => simp [rsplitDot, ih]

/-- Model of `bytes.decode("utf-8")` on the ASCII range: fails on any byte
outside it (such bytes never occur in cursors the codec itself produced). -/
def bytesToStr (l : List Nat) : Option (List Char) :=
  if l.all (fun b => decide (b < 128)) then some (l.map Char.ofNat) else none

/-- The `cursor_data` string of `encode_cursor`: payload, dot, signature. -/
def cursorData (secret timestamp event_id user_id : String) : String :=
  payloadJson timestamp event_id user_id ++ "." ++
    generateSignature secret (payloadJson timestamp event_id user_id)

/-- Model of `PaginationCursor.encode_cursor`: canonical JSON payload, HMAC
signature, dot concatenation, url-safe base64. -/
def encodeCursor (secret timestamp event_id user_id : String) : String :=
  String.mk (b64encode (strBytes (cursorData secret timestamp event_id user_id)))

/-- Model of `PaginationCursor.decode_cursor`: base64 decode, utf-8 decode,
split payload from signature at the last dot, verify the recomputed signature,
parse the JSON payload, check required fields, check the owner. -/
def decodeCursor (secret : String) (cursor : String) (user_id : String) :
    Except String (String × String) :=
  match b64decode cursor.data with
  | none => Except.error "Invalid cursor encoding"
  | some bytes =>
      match bytesToStr bytes with
      | none => Except.error "Invalid cursor"
      | some decoded =>
          match rsplitDot decoded with
          | none => Except.error "Invalid cursor format"
          | some (pj, sig) =>
              if String.mk sig = generateSignature secret (String.mk pj) then
                match jsonLoadsFlat (String.mk pj) with
                | none => Except.error "Invalid cursor format"
                | some fields =>
                    match lookupField fields "timestamp", lookupField fields "event_id",
                      lookupField fields "user_id" with
                    | some t, some e, some upay =>
                        if upay = user_id then Except.ok (t, e)
                        else Except.error "Cursor does not belong to this user"
                    | _, _, _ => Except.error "Cursor missing required fields"
              else Except.error "Invalid cursor signature"

lemma payloadJson_chars (t e u : String)
    (ht : validStr t = true) (he : validStr e = true) (hu : validStr u = true) :
    ∀ c ∈ (payloadJson t e u).data, c.toNat < 128 := by
  intro c hc
  have l1 : ∀ x ∈ ("\x7b\"event_id\":\"" : String).data, x.toNat < 128 := by decide
  have l2 : ∀ x ∈ ("\",\"timestamp\":\"" : String).data, x.toNat < 128 := by decide
  have l3 : ∀ x ∈ ("\",\"user_id\":\"" : String).data, x.toNat < 128 := by decide
  have l4 : ∀ x ∈ ("\"\x7d" : String).data, x.toNat < 128 := by decide
  simp only [payloadJson, String.data_append, List.mem_append] at hc
  rcases hc with ((((((h | h) | h) | h) | h) | h) | h)
  · exact l1 c h
  · exact (validStr_spec he c h).1
  · exact l2 c h
  · exact (validStr_spec ht c h).1
  · exact l3 c h
  · exact (validStr_spec hu c h).1
  · exact l4 c h

lemma cursorData_data (secret t e u : String) :
    (cursorData secret t e u).data =
      (payloadJson t e u).data ++ '.' ::
        (generateSignature secret (payloadJson t e u)).data := by
  simp [cursorData, String.data_append]

lemma cursorData_chars (secret t e u : String)
    (ht : validStr t = true) (he : validStr e = true) (hu : validStr u = true) :
    ∀ c ∈ (cursorData secret t e u).data, c.toNat < 128 := by
  intro c hc
  rw [cursorData_data] at hc
  rcases List.mem_append.mp hc with h | h
  · exact payloadJson_chars t e u ht he hu c h
  · rcases List.mem_cons.mp h with h | h
    · subst h; decide
    · exact (bytesToHex_props _ c h).1

lemma decodeCursor_encodeCursor (secret t e u v : String)
    (ht : validStr t = true) (he : validStr e = true) (hu : validStr u = true) :
    decodeCursor secret (encodeCursor secret t e u) v =
      if u = v then Except.ok (t, e)
      else Except.error "Cursor does not belong to this user" := by
  have hlt := cursorData_chars secret t e u ht he hu
  have hbytes : ∀ x ∈ strBytes (cursorData secret t e u), x < 256 := by
    intro x hx
    simp only [strBytes, List.mem_map] at hx
    obtain ⟨c, hc, rfl⟩ := hx
    have := hlt c hc
    omega
  have h1 : b64decode (encodeCursor secret t e u).data =
      some (strBytes (cursorData secret t e u)) :=
    b64decode_b64encode _ hbytes
  have h2 : bytesToStr (strBytes (cursorData secret t e u)) =
      some (cursorData secret t e u).data := by
    unfold bytesToStr
    rw [if_pos]
    · congr 1
      show List.map Char.ofNat (List.map Char.toNat (cursorData secret t e u).data) = _
      rw [List.map_map]
      have : ∀ c ∈ (cursorData secret t e u).data, (Char.ofNat ∘ Char.toNat) c = id c :=
        fun c _ => Char.ofNat_toNat c
      rw [List.map_congr_left this, List.map_id]
    · rw [List.all_eq_true]
      intro x hx
      simp only [strBytes, List.mem_map] at hx
      obtain ⟨c, hc, rfl⟩ := hx
      simpa using hlt c hc
  have h3 : rsplitDot (cursorData secret t e u).data =
      some ((payloadJson t e u).data, (generateSignature secret (payloadJson t e u)).data) := by
    rw [cursorData_data]
    exact rsplitDot_append _ _ (fun c hc => (bytesToHex_props _ c hc).2.1)
  have h4 : jsonLoadsFlat (payloadJson t e u) =
      some [("event_id", e), ("timestamp", t), ("user_id", u)] :=
    jsonLoadsFlat_payloadJson t e u ht he hu
  have n1 : ("event_id" : String) ≠ "timestamp" := by decide
  have n2 : ("event_id" : String) ≠ "user_id" := by decide
  have n3 : ("timestamp" : String) ≠ "user_id" := by decide
  simp only [decodeCursor, h1, h2, h3, string_mk_data, h4, lookupField,
    if_pos rfl, if_neg n1, if_neg n2, if_neg n3, if_true]

/-- C6: for all valid string triples, decoding the encoded cursor with the
same owner id succeeds and returns exactly the original timestamp and
event id. -/
theorem cursor_roundtrip (secret t e u : String)
    (ht : validStr t = true) (he : validStr e = true) (hu : validStr u = true) :
    decodeCursor secret (encodeCursor secret t e u) u = Except.ok (t, e) := by
  rw [decodeCursor_encodeCursor secret t e u u ht he hu, if_pos rfl]

/-- Witness for C6 at a concrete triple and the source's default secret. -/
theorem cursor_roundtrip_witness :
    validStr "2025-11-11T09:15:00.123456Z" = true ∧ validStr "evt-123" = true ∧
      validStr "user-456" = true ∧
      decodeCursor "default-secret-key-change-in-production"
        (encodeCursor "default-secret-key-change-in-production"
          "2025-11-11T09:15:00.123456Z" "evt-123" "user-456") "user-456" =
        Except.ok ("2025-11-11T09:15:00.123456Z", "evt-123") :=
  ⟨by decide, by decide, by decide,
    cursor_roundtrip "default-secret-key-change-in-production"
      "2025-11-11T09:15:00.123456Z" "evt-123" "user-456"
      (by decide) (by decide) (by decide)⟩

/-- C7: a cursor encoded for owner A, decoded with a different owner B's id,
always fails with the invalid-cursor owner error and never yields the
embedded pair. -/
theorem cursor_cross_owner_rejected (secret t e a b : String)
    (ht : validStr t = true) (he : validStr e = true) (ha : validStr a = true)
    (hne : a ≠ b) :
    decodeCursor secret (encodeCursor secret t e a) b =
      Except.error "Cursor does not belong to this user" := by
  rw [decodeCursor_encodeCursor secret t e a b ht he ha, if_neg hne]

/-- Witness for C7 at a concrete cross-owner pair. -/
theorem cursor_cross_owner_rejected_witness :
    validStr "2025-11-11T09:15:00.123456Z" = true ∧ validStr "evt-123" = true ∧
      validStr "owner-a" = true ∧ ("owner-a" : String) ≠ "owner-b" ∧
      decodeCursor "default-secret-key-change-in-production"
        (encodeCursor "default-secret-key-change-in-production"
          "2025-11-11T09:15:00.123456Z" "evt-123" "owner-a") "owner-b" =
        Except.error "Cursor does not belong to this user" :=
  ⟨by decide, by decide, by decide, by decide,
    cursor_cross_owner_rejected "default-secret-key-change-in-production"
      "2025-11-11T09:15:00.123456Z" "evt-123" "owner-a" "owner-b"
      (by decide) (by decide) (by decide) (by decide)⟩

/-! ## DynamoDB table model

Items are association lists of attribute values; the table is a list of
items.  `query_by_status` models the StatusIndex GSI query: owner-scoped,
`begins_with` on the `status#timestamp` range key, ascending index order,
`limit + 1` fetch, projection to the four public attributes, and the
next-key construction from the last returned item.  Missing-attribute
lookups surface as `DbError.keyError`, modelling Python's `KeyError`.
-/

inductive AttrVal
  | s (v : String)
  | n (v : Nat)
  | d (v : List (String × String))
deriving DecidableEq

def Item := List (String × AttrVal)

instance : DecidableEq Item := by
  unfold Item
  infer_instance

def Table := List Item

inductive DbError
  | keyError (attr : String)
  | indexError
  | loopLimit
deriving DecidableEq

def lookupA : Item → String → Option AttrVal
  | [], _ => none
  | (k, v) :: rest, key => if k = key then some v else lookupA rest key

/-- String view of an attribute, empty for absent or non-string values. -/
def attrS (i : Item) (k : String) : String :=
  match lookupA i k with
  | some (.s v) => v
  | _ => ""

def asS : AttrVal → String
  | .s v => v
  | _ => ""

def asD : AttrVal → List (String × String)
  | .d v => v
  | _ => []

def sameKey (i j : Item) : Bool :=
  decide (lookupA i "user_id" = lookupA j "user_id") &&
    decide (lookupA i "timestamp#event_id" = lookupA j "timestamp#event_id")

/-- DynamoDB `put_item`: replaces any item with the same primary key. -/
def put_item (table : Table) (item : Item) : Table :=
  List.filter (fun i => !(sameKey i item)) table ++ [item]

/-- Model of `EventRepository.create_event`: the exact item the source builds,
including both derived index projections. -/
def create_event (table : Table) (user_id event_id event_type : String)
    (payload : List (String × String)) (timestamp : String)
    (metadata : List (String × String)) (nowEpoch : Nat) : Table × Item :=
  let ttl := nowEpoch + 30 * 24 * 60 * 60
  let item : Item :=
    [("user_id", .s user_id),
     ("timestamp#event_id", .s (timestamp ++ "#" ++ event_id)),
     ("event_id", .s event_id),
     ("event_type", .s event_type),
     ("payload", .d payload),
     ("status", .s "received"),
     ("timestamp", .s timestamp),
     ("ttl", .n ttl),
     ("retry_count", .n 0),
     ("metadata", .d metadata),
     ("event_type#timestamp", .s (event_type ++ "#" ++ timestamp)),
     ("status#timestamp", .s ("received#" ++ timestamp))]
  (put_item table item, item)

def setAttr : Item → String → AttrVal → Item
  | [], k, v => [(k, v)]
  | (k0, v0) :: rest, k, v =>
      if k0 = k then (k0, v) :: rest else (k0, v0) :: setAttr rest k v

def findByKey (table : Table) (user_id timestamp_event_id : String) : Option Item :=
  List.find? (fun i =>
    decide (lookupA i "user_id" = some (.s user_id)) &&
      decide (lookupA i "timestamp#event_id" = some (.s timestamp_event_id))) table

/-- Model of `EventRepository.update_event_status`: DynamoDB `update_item` with
`SET #status = :status` and optionally `retry_count = :retry_count`, returning
the new attributes.  No other attribute is touched. -/
def update_event_status (table : Table) (user_id timestamp_event_id status : String)
    (retry_count : Option Nat) : Table × Item :=
  let base : Item :=
    match findByKey table user_id timestamp_event_id with
    | some i => i
    | none => [("user_id", .s user_id), ("timestamp#event_id", .s timestamp_event_id)]
  let upd1 := setAttr base "status" (.s status)
  let upd2 :=
    match retry_count with
    | some rc => setAttr upd1 "retry_count" (.n rc)
    | none => upd1
  (put_item table upd2, upd2)

def chPre : List Char → List Char → Bool
  | [], _ => true
  | _ :: _, [] => false
  | a :: as, b :: bs => a = b && chPre as bs

/-- DynamoDB `begins_with(s, pre)`. -/
def beginsWith (s pre : String) : Bool := chPre pre.data s.data

def listLt : List Char → List Char → Bool
  | [], [] => false
  | [], _ :: _ => true
  | _ :: _, [] => false
  | a :: as, b :: bs => if a = b then listLt as bs else decide (a.toNat < b.toNat)

def strLt (a b : String) : Bool := listLt a.data b.data

def strLe (a b : String) : Bool := strLt a b || decide (a = b)

/-- GSI key condition: partition key equals the owner and the range key
begins with the status marker. -/
def matchesIdx (user_id status : String) (i : Item) : Bool :=
  decide (lookupA i "user_id" = some (.s user_id)) &&
    (match lookupA i "status#timestamp" with
     | some (.s st) => beginsWith st (status ++ "#")
     | _ => false)

/-- Index order of StatusIndex: range key, then the table sort key. -/
def idxLe (i j : Item) : Bool :=
  let a := attrS i "status#timestamp"
  let b := attrS j "status#timestamp"
  if a = b then strLe (attrS i "timestamp#event_id") (attrS j "timestamp#event_id")
  else strLt a b

def insertLe (le : Item → Item → Bool) (x : Item) : List Item → List Item
  | [] => [x]
  | y :: ys => if le x y then x :: y :: ys else y :: insertLe le x ys

def sortLe (le : Item → Item → Bool) : List Item → List Item
  | [] => []
  | x :: xs => insertLe le x (sortLe le xs)

structure PrimKey3 where
  user_id : String
  ts_eid : String
  status_ts : String
deriving DecidableEq

/-- Strictly-after test for `ExclusiveStartKey` resumption. -/
def keyLtItem (k : PrimKey3) (i : Item) : Bool :=
  let b := attrS i "status#timestamp"
  if k.status_ts = b then strLt k.ts_eid (attrS i "timestamp#event_id")
  else strLt k.status_ts b

/-- The status-index slice a query walks: matching items in index order,
restricted to strictly after the resume key when one is given. -/
def matchingItems (table : Table) (user_id status : String)
    (lek : Option PrimKey3) : List Item :=
  let sorted := sortLe idxLe (List.filter (matchesIdx user_id status) table)
  match lek with
  | none => sorted
  | some k => List.filter (keyLtItem k) sorted

def projAttrs : List String := ["event_id", "event_type", "timestamp", "payload"]

/-- The ProjectionExpression `event_id, event_type, #ts, payload`. -/
def project (i : Item) : Item := List.filter (fun kv => projAttrs.contains kv.1) i

def applyTypeFilter (event_types : Option (List String)) (items : List Item) : List Item :=
  match event_types with
  | none => items
  | some ets =>
      if ets = [] then items
      else
        List.filter (fun i =>
          match lookupA i "event_type" with
          | some (.s v) => ets.contains v
          | _ => false) items

/-- Model of `EventRepository.query_by_status`.  Mirrors the source: fetch
`limit + 1` projected items, detect `has_more`, trim, build the next resume
key by reading `user_id` and `timestamp#event_id` from the last trimmed item
(raising `KeyError` when an attribute is absent, as `dict[...]` does), apply
the event-type post-filter, and return the page count. -/
def query_by_status (table : Table) (user_id status : String) (limit : Nat)
    (lek : Option PrimKey3) (event_types : Option (List String)) :
    Except DbError (List Item × Option PrimKey3 × Nat) :=
  let items0 := List.map project ((matchingItems table user_id status lek).take (limit + 1))
  if limit < items0.length then
    match (items0.take limit).getLast? with
    | none => Except.error DbError.indexError
    | some last =>
        match lookupA last "user_id" with
        | none => Except.error (.keyError "user_id")
        | some uid =>
            match lookupA last "timestamp#event_id" with
            | none => Except.error (.keyError "timestamp#event_id")
            | some tsid =>
                match lookupA last "timestamp" with
                | none => Except.error (.keyError "timestamp")
                | some tsv =>
                    let stts := (lookupA last "status#timestamp").getD
                      (.s (status ++ "#" ++ asS tsv))
                    let nk : PrimKey3 := ⟨asS uid, asS tsid, asS stts⟩
                    let items2 := applyTypeFilter event_types (items0.take limit)
                    Except.ok (items2, some nk, items2.length)
  else
    let items2 := applyTypeFilter event_types items0
    Except.ok (items2, none, items2.length)

/-- Model of `EventRepository.query_by_status_with_cursor`: builds the resume
key from the decoded cursor fields (Python truthiness: empty strings count as
absent) and reports `has_more` as next-key presence. -/
def query_by_status_with_cursor (table : Table) (user_id status : String) (limit : Nat)
    (cursor_timestamp cursor_event_id : Option String)
    (event_types : Option (List String)) : Except DbError (List Item × Bool) :=
  let lek : Option PrimKey3 :=
    match cursor_timestamp, cursor_event_id with
    | some ts, some eid =>
        if ts ≠ "" ∧ eid ≠ "" then
          some ⟨user_id, ts ++ "#" ++ eid, status ++ "#" ++ ts⟩
        else none
    | _, _ => none
  match query_by_status table user_id status limit lek event_types with
  | Except.error e => Except.error e
  | Except.ok (items, nk, _) => Except.ok (items, nk.isSome)

def countLoop (table : Table) (user_id status : String)
    (event_types : Option (List String)) :
    Nat → Option PrimKey3 → Nat → Except DbError Nat
  | 0, _, _ => Except.error DbError.loopLimit
  | fuel + 1, lek, count =>
      match query_by_status table user_id status 100 lek event_types with
      | Except.error e => Except.error e
      | Except.ok (items, nk, _) =>
          let count2 := count + items.length
          match nk with
          | none => Except.ok count2
          | some k =>
              if 10000 < count2 then Except.ok count2
              else countLoop table user_id status event_types fuel (some k) count2

/-- Model of `EventRepository.count_events_by_status`: pages of 100 are summed
until no next key remains or the 10000 safety ceiling trips. -/
def count_events_by_status (table : Table) (user_id status : String)
    (event_types : Option (List String)) : Except DbError Nat :=
  countLoop table user_id status event_types (table.length + 1) none 0

/-! ## Inbox service

Model of `InboxService.get_inbox_events`: limit and status validation, cursor
decoding, one repository page, next-cursor assembly from the last raw item,
and the total count.  `ValueError` and propagated store errors are the two
error branches.
-/

structure EventItem where
  event_id : String
  event_type : String
  timestamp : String
  payload : List (String × String)
deriving DecidableEq

structure PaginationInfo where
  limit : Nat
  cursor : Option String
  has_more : Bool
  total_count : Nat
deriving DecidableEq

structure InboxResponse where
  events : List EventItem
  pagination : PaginationInfo
deriving DecidableEq

inductive SvcError
  | valueError (msg : String)
  | dbError (e : DbError)
deriving DecidableEq

deriving instance DecidableEq for Except

def valid_statuses : List String := ["received", "failed", "queued", "delivered"]

def statusErrMsg : String := "status must be one of: received, failed, queued, delivered"

def itemGetE (i : Item) (k : String) : Except DbError AttrVal :=
  match lookupA i k with
  | some v => Except.ok v
  | none => Except.error (.keyError k)

/-- Model of `InboxService._transform_events`: project each raw item to the
four public fields, `KeyError` on a missing one. -/
def transformEvents : List Item → Except DbError (List EventItem)
  | [] => Except.ok []
  | i :: rest =>
      match itemGetE i "event_id" with
      | Except.error e => Except.error e
      | Except.ok eid =>
          match itemGetE i "event_type" with
          | Except.error e => Except.error e
          | Except.ok ety =>
              match itemGetE i "timestamp" with
              | Except.error e => Except.error e
              | Except.ok ts =>
                  match itemGetE i "payload" with
                  | Except.error e => Except.error e
                  | Except.ok pl =>
                      match transformEvents rest with
                      | Except.error e => Except.error e
                      | Except.ok tail =>
                          Except.ok (⟨asS eid, asS ety, asS ts, asD pl⟩ :: tail)

/-- The body of `get_inbox_events` after validation and cursor decoding. -/
def get_inbox_core (secret : String) (table : Table) (user_id : String) (limit : Nat)
    (cursor_timestamp cursor_event_id : Option String)
    (event_types : Option (List String)) (status : String) :
    Except SvcError InboxResponse :=
  match query_by_status_with_cursor table user_id status limit
      cursor_timestamp cursor_event_id event_types with
  | Except.error e => Except.error (.dbError e)
  | Except.ok (events_data, has_more) =>
      match transformEvents events_data with
      | Except.error e => Except.error (.dbError e)
      | Except.ok events =>
          let next_cursor : Option String :=
            if has_more ∧ 0 < events.length then
              match events_data.getLast? with
              | some last =>
                  some (encodeCursor secret (attrS last "timestamp")
                    (attrS last "event_id") user_id)
              | none => none
            else none
          match count_events_by_status table user_id status event_types with
          | Except.error e => Except.error (.dbError e)
          | Except.ok total_count =>
              Except.ok
                { events := events,
                  pagination :=
                    { limit := limit, cursor := next_cursor,
                      has_more := has_more, total_count := total_count } }

/-- Model of `InboxService.get_inbox_events`. -/
def get_inbox_events (secret : String) (table : Table) (user_id : String) (limit : Nat)
    (cursor : Option String) (event_types : Option (List String)) (status : String) :
    Except SvcError InboxResponse :=
  if limit < 1 ∨ 100 < limit then
    Except.error (.valueError "limit must be between 1 and 100")
  else if !(valid_statuses.contains status) then
    Except.error (.valueError statusErrMsg)
  else
    match cursor with
    | none => get_inbox_core secret table user_id limit none none event_types status
    | some c =>
        match decodeCursor secret c user_id with
        | Except.error m => Except.error (.valueError ("Invalid cursor: " ++ m))
        | Except.ok (ts, eid) =>
            get_inbox_core secret table user_id limit (some ts) (some eid)
              event_types status

lemma getLast_of_ne_nil {α : Type} :
    ∀ (l : List α), l ≠ [] → ∃ a, l.getLast? = some a ∧ a ∈ l := by
  intro l
  induction l with
  | nil => intro h; exact absurd rfl h
  | cons x xs ih =>
      intro _
      cases hxs : xs with
      | nil => exact ⟨x, by simp, by simp⟩
      | cons y ys =>
          obtain ⟨a, ha, hmem⟩ := ih (by simp [hxs])
          refine ⟨a, ?_, by simp [hxs ▸ hmem]⟩
          rw [hxs] at ha
          rw [List.getLast?_cons_cons]
          exact ha

lemma lookupA_project_none (i : Item) (key : String)
    (h : projAttrs.contains key = false) : lookupA (project i) key = none := by
  induction i with
  | nil => rfl
  | cons kv rest ih =>
      obtain ⟨k, v⟩ := kv
      show lookupA (List.filter (fun kv => projAttrs.contains kv.1) ((k, v) :: rest)) key = none
      rw [List.filter_cons]
      by_cases hk : projAttrs.contains (k, v).1 = true
      · rw [if_pos hk]
        have hkk : k ≠ key := by
          intro hkey
          rw [show (k, v).1 = k from rfl, hkey, h] at hk
          exact Bool.false_ne_true hk
        show lookupA ((k, v) :: List.filter _ rest) key = none
        rw [lookupA, if_neg hkk]
        exact ih
      · rw [if_neg hk]
        exact ih

/-- C3: whenever more than `limit` events match the status query (the store
hands back `limit + 1` items), the next-resume-key construction reads
`user_id` from the last returned item, which the query's own projection
excluded, so the call fails with the missing-key error instead of returning
the page and a resume key. -/
theorem query_more_page_fails (table : Table) (u st : String) (limit : Nat)
    (lek : Option PrimKey3) (ets : Option (List String))
    (h1 : 1 ≤ limit) (h2 : limit < (matchingItems table u st lek).length) :
    query_by_status table u st limit lek ets = Except.error (.keyError "user_id") := by
  unfold query_by_status
  simp only []
  have hlen : (List.map project ((matchingItems table u st lek).take (limit + 1))).length
      = limit + 1 := by
    rw [List.length_map, List.length_take]
    omega
  rw [if_pos (by omega)]
  have hlen2 : ((List.map project ((matchingItems table u st lek).take (limit + 1))).take
      limit).length = limit := by
    rw [List.length_take, hlen]
    omega
  have hne : (List.map project ((matchingItems table u st lek).take (limit + 1))).take
      limit ≠ [] := by
    intro h
    rw [h] at hlen2
    simp at hlen2
    omega
  obtain ⟨last, hlast, hmem⟩ := getLast_of_ne_nil _ hne
  have hmem0 := List.take_subset _ _ hmem
  obtain ⟨j, _, rfl⟩ := List.mem_map.mp hmem0
  simp only [hlast, lookupA_project_none j "user_id" (by decide)]

/-- Concrete store used by witnesses and failing-input evaluations: two events
created for owner u1 via `create_event`. -/
def sampleTable2 : Table :=
  (create_event
    ((create_event [] "u1" "e1" "user.created" [("k", "v")] "2025-01-01T00:00:01Z" [] 0).1)
    "u1" "e2" "user.created" [("k", "v")] "2025-01-01T00:00:02Z" [] 0).1

/-- Three events for owner u1. -/
def sampleTable3 : Table :=
  (create_event sampleTable2 "u1" "e3" "user.created" [("k", "v")]
    "2025-01-01T00:00:03Z" [] 0).1

/-- Witness for C3: two received events, page size 1. -/
theorem query_more_page_fails_witness :
    1 ≤ 1 ∧ 1 < (matchingItems sampleTable2 "u1" "received" none).length ∧
      query_by_status sampleTable2 "u1" "received" 1 none none =
        Except.error (.keyError "user_id") :=
  ⟨by decide, by decide,
    query_more_page_fails sampleTable2 "u1" "received" 1 none none
      (by decide) (by decide)⟩

/-- C1 failing input: an owner with two received events and page size 1; the
first page request fails with the projection-induced KeyError, so repeated
cursor-following retrieval can never enumerate the events. -/
theorem inbox_pagination_more_results_crashes :
    get_inbox_events "default-secret-key-change-in-production" sampleTable2 "u1" 1
      none none "received" = Except.error (.dbError (.keyError "user_id")) := by
  decide

/-- C9 failing input: three received events, page size 2, with an event-type
filter; the request where more results exist fails instead of returning a
page with a non-null cursor. -/
theorem inbox_next_cursor_never_emitted :
    get_inbox_events "default-secret-key-change-in-production" sampleTable3 "u1" 2
      none (some ["user.created"]) "received" =
      Except.error (.dbError (.keyError "user_id")) := by
  decide

/-- C2 failing input: create an event, then `update_event_status` to
delivered; the returned (and stored) attributes keep the stale index
projection `received#...` while `status` reads delivered. -/
theorem update_status_index_diverges :
    lookupA (update_event_status
        (create_event [] "u1" "e1" "user.created" [] "2025-01-01T00:00:01Z" [] 0).1
        "u1" "2025-01-01T00:00:01Z#e1" "delivered" none).2 "status" =
      some (.s "delivered") ∧
    lookupA (update_event_status
        (create_event [] "u1" "e1" "user.created" [] "2025-01-01T00:00:01Z" [] 0).1
        "u1" "2025-01-01T00:00:01Z#e1" "delivered" none).2 "status#timestamp" =
      some (.s "received#2025-01-01T00:00:01Z") ∧
    ("received#2025-01-01T00:00:01Z" : String) ≠ "delivered#2025-01-01T00:00:01Z" := by
  decide

lemma get_inbox_core_no_valueError (secret : String) (table : Table) (u : String)
    (limit : Nat) (cts ceid : Option String) (ets : Option (List String))
    (st : String) (m : String) :
    get_inbox_core secret table u limit cts ceid ets st ≠
      Except.error (.valueError m) := by
  unfold get_inbox_core
  cases hq : query_by_status_with_cursor table u st limit cts ceid ets with
  | error e => simp
  | ok p =>
      obtain ⟨ed, hm⟩ := p
      cases ht : transformEvents ed with
      | error e => simp [ht]
      | ok evs =>
          cases hc : count_events_by_status table u st ets with
          | error e => simp [ht, hc]
          | ok n => simp [ht, hc]

/-- C10 counterexample: the status "retrying" belongs to the data-model
lifecycle enum, yet the validation rejects it with the ValueError. -/
theorem inbox_rejects_retrying_status :
    get_inbox_events "default-secret-key-change-in-production" ([] : Table) "u1" 50
      none none "retrying" = Except.error (.valueError statusErrMsg) := by
  decide

/-- C10 (amended): with a valid limit and no cursor, the call fails with the
status ValueError exactly when the status is outside the code's list
received, failed, queued, delivered; each listed status passes validation. -/
theorem inbox_status_validation (secret : String) (table : Table) (u : String)
    (limit : Nat) (ets : Option (List String)) (st : String)
    (h1 : 1 ≤ limit) (h2 : limit ≤ 100) :
    (st ∉ valid_statuses →
      get_inbox_events secret table u limit none ets st =
        Except.error (.valueError statusErrMsg)) ∧
    (st ∈ valid_statuses →
      ∀ m, get_inbox_events secret table u limit none ets st ≠
        Except.error (.valueError m)) := by
  constructor
  · intro hst
    unfold get_inbox_events
    rw [if_neg (by omega), if_pos (by simp [hst])]
  · intro hst m
    unfold get_inbox_events
    rw [if_neg (by omega), if_neg (by simp [hst])]
    exact get_inbox_core_no_valueError secret table u limit none none ets st m

/-- Witness for C10's amended statement: "queued" is accepted even though it
is outside the data-model enum. -/
theorem inbox_status_validation_witness :
    get_inbox_events "s" ([] : Table) "u1" 50 none none "queued" ≠
      Except.error (.valueError statusErrMsg) :=
  (inbox_status_validation "s" ([] : Table) "u1" 50 none "queued"
    (by decide) (by decide)).2 (by decide) statusErrMsg

/-! ## Retry and lifecycle services

`RetryService.schedule_retry`, `RetryService.mark_failed` and
`EventLifecycleService.acknowledge_event` are embedded from the source.  The
repository methods they call (`get_event_status`, `update_retry_attempts`,
`mark_as_failed`, `acknowledge_event`) are absent from the provided sources
(only their callers exist), so those are modelled from the spec, as flagged on
each definition.  The store is typed here: a map from (owner, event id) to the
event's lifecycle fields.
-/

structure EventRec where
  status : String
  retry_attempts : Nat
  last_error : Option String
  last_retry_at : Option String
  failed_at : Option String
  delivered_at : Option String
deriving DecidableEq

abbrev RetryDb := List ((String × String) × EventRec)

def dbGet : RetryDb → String → String → Option EventRec
  | [], _, _ => none
  | ((u0, e0), v) :: rest, u, e =>
      if u0 = u ∧ e0 = e then some v else dbGet rest u e

def dbSet : RetryDb → String → String → EventRec → RetryDb
  | [], u, e, v => [((u, e), v)]
  | ((u0, e0), v0) :: rest, u, e, v =>
      if u0 = u ∧ e0 = e then ((u0, e0), v) :: rest
      else ((u0, e0), v0) :: dbSet rest u e v

lemma dbGet_dbSet (db : RetryDb) (u e : String) (v : EventRec) :
    dbGet (dbSet db u e v) u e = some v := by
  induction db with
  | nil => simp [dbGet, dbSet]
  | cons kv rest ih =>
      obtain ⟨⟨u0, e0⟩, v0⟩ := kv
      by_cases h : u0 = u ∧ e0 = e
      · simp [dbSet, dbGet, h]
      · simp [dbSet, dbGet, h, ih]

/-- Modelled from the spec: `EventRepository.get_event_status` is called by
`RetryService` but missing from the provided sources; per spec section 4.3 and
the service docstring it returns the stored status info (including the retry
counter) or nothing when the event does not exist for that owner. -/
def repo_get_event_status (db : RetryDb) (user_id event_id : String) :
    Option EventRec :=
  dbGet db user_id event_id

/-- Modelled from the spec: `EventRepository.update_retry_attempts` is called
by `RetryService.schedule_retry` but missing from the provided sources; per
spec section 4.3 it stores the new retry counter, records the latest error and
retry timestamp, and keeps the event in the retrying state. -/
def repo_update_retry_attempts (db : RetryDb) (user_id event_id : String)
    (retry_attempts : Nat) (last_error : Option String) (now : String) :
    Option (EventRec × RetryDb) :=
  match dbGet db user_id event_id with
  | none => none
  | some ev =>
      let ev2 : EventRec :=
        { ev with
            status := "retrying"
            retry_attempts := retry_attempts
            last_error := last_error
            last_retry_at := some now }
      some (ev2, dbSet db user_id event_id ev2)

/-- Modelled from the spec: `EventRepository.mark_as_failed` is called by
`RetryService.mark_failed` but missing from the provided sources; per spec
section 4.3 it is the idempotent terminal transition to failed, recording the
failure reason and timestamp, returning an already-failed event unchanged. -/
def repo_mark_as_failed (db : RetryDb) (user_id event_id : String)
    (failure_reason : Option String) (now : String) : Option (EventRec × RetryDb) :=
  match dbGet db user_id event_id with
  | none => none
  | some ev =>
      if ev.status = "failed" then some (ev, db)
      else
        let ev2 : EventRec :=
          { ev with
              status := "failed"
              failed_at := some now
              last_error := failure_reason }
        some (ev2, dbSet db user_id event_id ev2)

/-- Modelled from the spec: `EventRepository.acknowledge_event` is called by
`EventLifecycleService.acknowledge_event` but missing from the provided
sources; per spec section 4.3 it is the idempotent transition to delivered,
setting the delivery timestamp on the first call and returning an
already-delivered event unchanged. -/
def repo_acknowledge_event (db : RetryDb) (user_id event_id : String)
    (now : String) : Option (EventRec × RetryDb) :=
  match dbGet db user_id event_id with
  | none => none
  | some ev =>
      if ev.status = "delivered" then some (ev, db)
      else
        let ev2 := { ev with status := "delivered", delivered_at := some now }
        some (ev2, dbSet db user_id event_id ev2)

def RETRY_DELAYS : List Nat := [60, 300, 900]

def MAX_RETRY_ATTEMPTS : Nat := 3

/-- Model of `RetryService.get_retry_delay`. -/
def get_retry_delay (retry_attempts : Nat) : Option Nat :=
  if MAX_RETRY_ATTEMPTS ≤ retry_attempts then none
  else RETRY_DELAYS.get? retry_attempts

/-- Model of Python `error_message or "Max retry attempts exceeded"`. -/
def retryFailureReason (error_message : Option String) : String :=
  match error_message with
  | some s => if s = "" then "Max retry attempts exceeded" else s
  | none => "Max retry attempts exceeded"

structure RetryResult where
  event_id : String
  retry_attempts : Nat
  next_retry_delay : Option Nat
  status : String
deriving DecidableEq

/-- Model of `RetryService.mark_failed` (a logging wrapper over the
repository call). -/
def mark_failed (db : RetryDb) (user_id event_id : String)
    (failure_reason : Option String) (now : String) : Option (EventRec × RetryDb) :=
  repo_mark_as_failed db user_id event_id failure_reason now

/-- Model of `RetryService.schedule_retry`: read the current counter,
increment, either mark permanently failed (counter would reach the maximum)
or store the retry metadata and return the delay for the new counter. -/
def schedule_retry (db : RetryDb) (user_id event_id : String)
    (error_message : Option String) (now : String) :
    Option (RetryResult × RetryDb) :=
  match repo_get_event_status db user_id event_id with
  | none => none
  | some info =>
      let new_attempts := info.retry_attempts + 1
      if MAX_RETRY_ATTEMPTS ≤ new_attempts then
        match mark_failed db user_id event_id
            (some (retryFailureReason error_message)) now with
        | none => none
        | some (_, db2) =>
            some ({ event_id := event_id, retry_attempts := new_attempts,
                    next_retry_delay := none, status := "failed" }, db2)
      else
        match repo_update_retry_attempts db user_id event_id new_attempts
            error_message now with
        | none => none
        | some (_, db2) =>
            some ({ event_id := event_id, retry_attempts := new_attempts,
                    next_retry_delay := get_retry_delay new_attempts,
                    status := "queued" }, db2)

/-- Model of `EventLifecycleService.acknowledge_event` (a logging wrapper over
the repository call). -/
def acknowledge_event (db : RetryDb) (user_id event_id : String)
    (now : String) : Option (EventRec × RetryDb) :=
  repo_acknowledge_event db user_id event_id now

lemma retry_step (db : RetryDb) (u e : String) (err : Option String) (now : String)
    (ev : EventRec) (r : Nat) (hev : dbGet db u e = some ev)
    (hr : ev.retry_attempts = r) (hlt : r + 1 < MAX_RETRY_ATTEMPTS) :
    schedule_retry db u e err now =
      some (⟨e, r + 1, RETRY_DELAYS.get? (r + 1), "queued"⟩,
            dbSet db u e
              { ev with
                  status := "retrying"
                  retry_attempts := r + 1
                  last_error := err
                  last_retry_at := some now }) := by
  unfold schedule_retry repo_get_event_status repo_update_retry_attempts get_retry_delay
  rw [hev]
  simp only [hr]
  simp only [if_neg (show ¬ MAX_RETRY_ATTEMPTS ≤ r + 1 from by omega)]

lemma retry_max (db : RetryDb) (u e : String) (err : Option String) (now : String)
    (ev : EventRec) (hev : dbGet db u e = some ev)
    (hnf : ev.status ≠ "failed") (hge : MAX_RETRY_ATTEMPTS ≤ ev.retry_attempts + 1) :
    schedule_retry db u e err now =
      some (⟨e, ev.retry_attempts + 1, none, "failed"⟩,
            dbSet db u e
              { ev with
                  status := "failed"
                  failed_at := some now
                  last_error := some (retryFailureReason err) }) := by
  unfold schedule_retry repo_get_event_status mark_failed repo_mark_as_failed
  rw [hev]
  simp only [if_pos hge, if_neg hnf]

/-- C4 counterexample: a fresh event with retry count 0; the first
`schedule_retry` returns a 300 second delay, not the 60 seconds the claimed
0-indexed-by-attempt schedule would give. -/
def freshEvent : EventRec :=
  { status := "received"
    retry_attempts := 0
    last_error := none
    last_retry_at := none
    failed_at := none
    delivered_at := none }

def retryDb0 : RetryDb := [(("u1", "e1"), freshEvent)]

/-- C4 counterexample theorem: on retry count 0 the returned delay is 300
seconds, not 60. -/
theorem schedule_retry_first_delay_is_300 :
    (schedule_retry retryDb0 "u1" "e1" (some "boom") "2025-01-01T00:00:00Z").map
        (fun p => p.1.next_retry_delay) = some (some 300) ∧
      (schedule_retry retryDb0 "u1" "e1" (some "boom") "2025-01-01T00:00:00Z").map
        (fun p => p.1.next_retry_delay) ≠ some (some 60) := by
  decide

/-- C4 (amended): for retry count r with r + 1 below the maximum,
`schedule_retry` increments the stored counter to r + 1, records the error and
retry timestamp, leaves the stored event in the retrying state, and returns
the delay from the fixed schedule indexed by the incremented counter r + 1
(so the first retry waits 300 seconds, the second 900; the 60 second entry is
never returned by this path). -/
theorem schedule_retry_increments (db : RetryDb) (u e : String) (err : Option String)
    (now : String) (ev : EventRec) (r : Nat) (hev : dbGet db u e = some ev)
    (hr : ev.retry_attempts = r) (hlt : r + 1 < MAX_RETRY_ATTEMPTS) :
    ∃ db2, schedule_retry db u e err now =
        some (⟨e, r + 1, RETRY_DELAYS.get? (r + 1), "queued"⟩, db2) ∧
      dbGet db2 u e = some
        { ev with
            status := "retrying"
            retry_attempts := r + 1
            last_error := err
            last_retry_at := some now } :=
  ⟨_, retry_step db u e err now ev r hev hr hlt, dbGet_dbSet db u e _⟩

/-- Witness for C4's amended statement at the fresh event. -/
theorem schedule_retry_increments_witness :
    ∃ db2, schedule_retry retryDb0 "u1" "e1" (some "boom") "t1" =
        some (⟨"e1", 1, RETRY_DELAYS.get? 1, "queued"⟩, db2) ∧
      dbGet db2 "u1" "e1" = some
        { freshEvent with
            status := "retrying"
            retry_attempts := 1
            last_error := some "boom"
            last_retry_at := some "t1" } :=
  schedule_retry_increments retryDb0 "u1" "e1" (some "boom") "t1" freshEvent 0
    (by decide) (by decide) (by decide)

/-- C5: whenever incrementing the stored retry count would reach or exceed
the maximum of 3, `schedule_retry` transitions the event to failed, records
the error and the failure timestamp, and returns a null delay; and three
consecutive calls on a fresh event end with status failed and a null delay on
the third call. -/
theorem schedule_retry_terminal :
    (∀ (db : RetryDb) (u e : String) (err : Option String) (now : String)
      (ev : EventRec), dbGet db u e = some ev → ev.status ≠ "failed" →
      MAX_RETRY_ATTEMPTS ≤ ev.retry_attempts + 1 →
      ∃ db2, schedule_retry db u e err now =
          some (⟨e, ev.retry_attempts + 1, none, "failed"⟩, db2) ∧
        dbGet db2 u e = some
          { ev with
              status := "failed"
              failed_at := some now
              last_error := some (retryFailureReason err) }) ∧
    (∀ (db : RetryDb) (u e : String) (err : Option String) (now1 now2 now3 : String)
      (ev : EventRec), dbGet db u e = some ev → ev.retry_attempts = 0 →
      ∃ r1 db1 r2 db2 r3 db3,
        schedule_retry db u e err now1 = some (r1, db1) ∧
        schedule_retry db1 u e err now2 = some (r2, db2) ∧
        schedule_retry db2 u e err now3 = some (r3, db3) ∧
        r3.status = "failed" ∧ r3.next_retry_delay = none ∧
        ∃ ev3, dbGet db3 u e = some ev3 ∧ ev3.status = "failed") := by
  constructor
  · intro db u e err now ev hev hnf hge
    exact ⟨_, retry_max db u e err now ev hev hnf hge, dbGet_dbSet db u e _⟩
  · intro db u e err now1 now2 now3 ev hev hr0
    have s1 := retry_step db u e err now1 ev 0 hev hr0 (by decide)
    have h1 : dbGet (dbSet db u e { ev with status := "retrying", retry_attempts := 1, last_error := err, last_retry_at := some now1 }) u e = some { ev with status := "retrying", retry_attempts := 1, last_error := err, last_retry_at := some now1 } := dbGet_dbSet db u e _
    have s2 := retry_step _ u e err now2 _ 1 h1 rfl (by decide)
    have h2 := dbGet_dbSet (dbSet db u e { ev with status := "retrying", retry_attempts := 1, last_error := err, last_retry_at := some now1 }) u e { ev with status := "retrying", retry_attempts := 2, last_error := err, last_retry_at := some now2 }
    have hnf2 : ("retrying" : String) ≠ "failed" := by decide
    have hge3 : MAX_RETRY_ATTEMPTS ≤ 2 + 1 := by decide
    have s3 := retry_max (dbSet (dbSet db u e { ev with status := "retrying", retry_attempts := 1, last_error := err, last_retry_at := some now1 }) u e { ev with status := "retrying", retry_attempts := 2, last_error := err, last_retry_at := some now2 }) u e err now3 { ev with status := "retrying", retry_attempts := 2, last_error := err, last_retry_at := some now2 } h2 hnf2 hge3
    exact ⟨_, _, _, _, _, _, s1, s2, s3, rfl, rfl, _, dbGet_dbSet _ u e _, rfl⟩

/-- Witness for C5 at the fresh event: three calls end in failed with a null
third delay. -/
theorem schedule_retry_terminal_witness :
    ∃ r1 db1 r2 db2 r3 db3,
      schedule_retry retryDb0 "u1" "e1" (some "boom") "t1" = some (r1, db1) ∧
      schedule_retry db1 "u1" "e1" (some "boom") "t2" = some (r2, db2) ∧
      schedule_retry db2 "u1" "e1" (some "boom") "t3" = some (r3, db3) ∧
      r3.status = "failed" ∧ r3.next_retry_delay = none ∧
      ∃ ev3, dbGet db3 "u1" "e1" = some ev3 ∧ ev3.status = "failed" :=
  schedule_retry_terminal.2 retryDb0 "u1" "e1" (some "boom") "t1" "t2" "t3"
    freshEvent (by decide) (by decide)

/-- C8: acknowledging an event that exists and is not yet delivered sets its
status to delivered with the delivery timestamp, and a second acknowledgment
returns exactly the same result without error, leaving the store unchanged. -/
theorem acknowledge_idempotent (db : RetryDb) (u e : String) (now1 now2 : String)
    (ev : EventRec) (hev : dbGet db u e = some ev) (hnd : ev.status ≠ "delivered") :
    ∃ ev1 db1, acknowledge_event db u e now1 = some (ev1, db1) ∧
      ev1.status = "delivered" ∧ ev1.delivered_at = some now1 ∧
      acknowledge_event db1 u e now2 = some (ev1, db1) := by
  unfold acknowledge_event repo_acknowledge_event
  rw [hev]
  simp only []
  rw [if_neg hnd]
  refine ⟨_, _, rfl, rfl, rfl, ?_⟩
  rw [dbGet_dbSet]
  simp

/-- Witness for C8 at the fresh event. -/
theorem acknowledge_idempotent_witness :
    ∃ ev1 db1, acknowledge_event retryDb0 "u1" "e1" "t1" = some (ev1, db1) ∧
      ev1.status = "delivered" ∧ ev1.delivered_at = some "t1" ∧
      acknowledge_event db1 "u1" "e1" "t2" = some (ev1, db1) :=
  acknowledge_idempotent retryDb0 "u1" "e1" "t1" "t2" freshEvent
    (by decide) (by decide)

end ZapierTriggers
